import Mathlib

/-!
Shallow embedding of the `weather_backend` repository's core pipeline:
the unit conversion engine (`national_weather_service/nws_config.py`),
the shared location parser (`weather_shared.py`), the AccuWeather
location cache (`accuweather/accuweather_client.py`), the Open-Meteo
geocoder and scraper (`open_meteo/`), the WeatherAPI payload translation
(`weatherapi/weatherapi_utils.py`) and the aggregation entry point
`get_weather` (`weather_scraper.py`).

Modelling conventions:
* Python floats are modelled as exact rationals (`ℚ`); `round(x, n)`
  is rounding to the nearest multiple of `10^-n` (the tie-breaking rule
  of Python's banker rounding is immaterial to every property proved
  here, which only uses the half-unit error bound).
* Python `None` is `Option.none`; a dict field that may be absent is an
  `Option`.
* A Python function that can raise returns `Except PyErr _`; `PyErr`
  enumerates the exception conditions the code distinguishes.
* Network calls are oracles: the outcome of each HTTP-request-plus-parse
  step is an explicit argument (`Except PyErr _` or `Option _`), so a
  theorem quantifying over oracle values covers every provider response.
-/

/-- Python exception conditions raised or caught by the embedded code.
`runtimeError` is Python's `RuntimeError` (the only class caught by
`get_weather`'s accuweather branch); `unauthorized`, `transport`,
`notFound` and `malformedResponse` are the spec's taxonomy for the
request-library exceptions an adapter can raise; `keyError k` is a
`KeyError` on dict key `k`. -/
inductive PyErr where
  | valueError
  | typeError
  | keyError (k : String)
  | runtimeError
  | unauthorized
  | transport
  | notFound
  | malformedResponse
deriving DecidableEq, Repr

/-- Python `round(x, 1)`: round to the nearest tenth. -/
def round1 (q : ℚ) : ℚ := (round (10 * q) : ℤ) / 10

/-- Python `round(x, 2)`: round to the nearest hundredth. -/
def round2 (q : ℚ) : ℚ := (round (100 * q) : ℤ) / 100

/-- `set_temp` from `national_weather_service/nws_config.py`. -/
def set_temp (temperature_value : Option ℚ) (temperature_units target_units : String) :
    Option ℚ :=
  match temperature_value with
  | none => none
  | some v =>
    if target_units = "imperial" ∧ temperature_units = "wmoUnit:degC" then
      some (round1 (32 + v * 1.8))
    else if target_units = "metric" ∧ temperature_units = "wmoUnit:degF" then
      some (round1 ((v - 32) / 1.8))
    else
      some (round1 v)

/-- `set_speed` from `national_weather_service/nws_config.py`.  Note that
the final two branches return the value with no rounding applied. -/
def set_speed (speed_value : Option ℚ) (speed_units target_units : String) : Option ℚ :=
  match speed_value with
  | none => none
  | some v =>
    if target_units = "imperial" ∧ speed_units = "wmoUnit:m_s-1" then
      some (round1 (v * 2.23694))
    else if target_units = "imperial" ∧ speed_units = "wmoUnit:km_h-1" then
      some (round1 (v * 0.621371))
    else if target_units = "metric" ∧ speed_units = "wmoUnit:mph" then
      some (round1 (v * 1.60934))
    else if target_units = "metric" ∧ speed_units = "wmoUnit:m_s-1" then
      some v
    else
      some v

/-- `set_pressure` from `national_weather_service/nws_config.py`. -/
def set_pressure (pressure_value : Option ℚ) (pressure_units target_units : String) :
    Option ℚ :=
  match pressure_value with
  | none => none
  | some v =>
    if target_units = "imperial" then
      if pressure_units = "wmoUnit:Pa" then some (round2 (v * 0.0002953))
      else if pressure_units = "wmoUnit:hPa" then some (round2 (v * 0.02953))
      else some v
    else if target_units = "metric" then
      if pressure_units = "wmoUnit:Pa" then some (round1 (v / 100))
      else if pressure_units = "wmoUnit:hPa" then some v
      else if pressure_units = "wmoUnit:inHg" then some (round2 (v / 0.02953))
      else some v
    else some v

/-- `set_visibility` from `national_weather_service/nws_config.py`. -/
def set_visibility (visibility_value : Option ℚ) (visibility_units target_units : String) :
    Option ℚ :=
  match visibility_value with
  | none => none
  | some v =>
    if target_units = "metric" then
      if visibility_units = "wmoUnit:m" then some v
      else if visibility_units = "wmoUnit:mi" then some (round2 (v * 1609.34))
      else some v
    else if target_units = "imperial" then
      if visibility_units = "wmoUnit:m" then some (round2 (v / 1609.34))
      else if visibility_units = "wmoUnit:mi" then some v
      else some v
    else some v

/-- String upper-casing as Python's `str.upper()` on ASCII text
(`amount.upper()` in `set_cloud_cover`). -/
def pyUpper (s : String) : String := String.mk (s.toList.map Char.toUpper)

/-- The `coverage_map` dict inside `set_cloud_cover`. -/
def coverage_map (amount : String) : Option ℚ :=
  match amount with
  | "SKC" => some 0
  | "CLR" => some 0
  | "FEW" => some 12.5
  | "SCT" => some 37.5
  | "BKN" => some 75
  | "OVC" => some 100
  | _ => none

/-- One element of the `cloudLayers` sequence of an NWS observation: a
dict whose `amount` key may be absent (`layer.get("amount")`). -/
structure CloudLayer where
  amount : Option String
deriving DecidableEq, Repr

/-- The per-layer step of `set_cloud_cover`'s loop: a layer contributes a
percentage when its `amount` is present, truthy (non-empty) and found in
`coverage_map` after upper-casing. -/
def layerPercent (layer : CloudLayer) : Option ℚ :=
  match layer.amount with
  | none => none
  | some a => if a = "" then none else coverage_map (pyUpper a)

/-- `set_cloud_cover` from `national_weather_service/nws_config.py`.  The
argument is `Option` because Python's `if not cloud_layers` treats both
`None` and the empty list as absent. -/
def set_cloud_cover (cloud_layers : Option (List CloudLayer)) : Option ℚ :=
  match cloud_layers with
  | none => none
  | some layers =>
    if layers = [] then none
    else
      match layers.filterMap layerPercent with
      | [] => none
      | p :: ps => some (ps.foldl max p)

/-- Python `str.strip()`: drop leading and trailing whitespace. -/
def pyStrip (cs : List Char) : List Char :=
  ((cs.dropWhile Char.isWhitespace).reverse.dropWhile Char.isWhitespace).reverse

/-- Python `str.split(sep)` for a one-character separator: splitting the
empty string gives `[""]`, and `n` separators give `n + 1` parts. -/
def pySplit (sep : Char) : List Char → List (List Char)
  | [] => [[]]
  | c :: rest =>
    if c = sep then [] :: pySplit sep rest
    else
      match pySplit sep rest with
      | [] => [[c]]
      | h :: t => (c :: h) :: t

/-- Value of a list of decimal digit characters. -/
def digitsToNat (ds : List Char) : ℕ := ds.foldl (fun a c => 10 * a + (c.toNat - 48)) 0

/-- Python `float(s)` restricted to finite decimal literals: optional
surrounding whitespace, an optional sign, digits with an optional single
decimal point (at least one digit overall), and an optional exponent
part.  Python additionally accepts `inf`, `nan` and digit-group
underscores; no claim depends on those inputs, and the classification
properties proved below are relative to this grammar. -/
def pyFloat? (cs : List Char) : Option ℚ :=
  let cs0 := pyStrip cs
  let sp : ℚ × List Char :=
    match cs0 with
    | '+' :: r => (1, r)
    | '-' :: r => (-1, r)
    | r => (1, r)
  let ip := sp.2.span Char.isDigit
  let fr : List Char × List Char :=
    match ip.2 with
    | '.' :: r => r.span Char.isDigit
    | r => ([], r)
  if ip.1.isEmpty ∧ fr.1.isEmpty then none
  else
    let mant : ℚ := (digitsToNat ip.1 : ℚ) + (digitsToNat fr.1 : ℚ) / 10 ^ fr.1.length
    match fr.2 with
    | [] => some (sp.1 * mant)
    | e :: r3 =>
      if e = 'e' ∨ e = 'E' then
        let esp : ℤ × List Char :=
          match r3 with
          | '+' :: r => (1, r)
          | '-' :: r => (-1, r)
          | r => (1, r)
        let ed := esp.2.span Char.isDigit
        if ed.1.isEmpty ∨ ¬ ed.2.isEmpty then none
        else some (sp.1 * mant * (10 : ℚ) ^ (esp.1 * (digitsToNat ed.1 : ℤ)))
      else none

/-- The dict returned by `parse_location` in `weather_shared.py`:
either `lat`/`lon` or `city`/`state` are populated. -/
structure Loc where
  lat : Option ℚ
  lon : Option ℚ
  city : Option String
  state : Option String
deriving DecidableEq, Repr

/-- `parse_location` from `weather_shared.py`: split on commas; exactly
two parts that both parse as floats are coordinates, two parts otherwise
are city/state, and any other number of parts raises `ValueError`. -/
def parse_location (location : String) : Except PyErr Loc :=
  match pySplit ',' location.toList with
  | [p0, p1] =>
    match pyFloat? p0, pyFloat? p1 with
    | some la, some lo => .ok ⟨some la, some lo, none, none⟩
    | _, _ => .ok ⟨none, none, some (String.mk (pyStrip p0)), some (String.mk (pyStrip p1))⟩
  | _ => .error .valueError

/-- Python `int(q)` on a float: truncation toward zero. -/
def pyInt (q : ℚ) : ℤ := q.num / (q.den : ℤ)

/-- The 16 compass points of `degrees_to_direction`. -/
def directions16 : List String :=
  ["N", "NNE", "NE", "ENE", "E", "ESE", "SE", "SSE",
   "S", "SSW", "SW", "WSW", "W", "WNW", "NW", "NNW"]

/-- `degrees_to_direction` from `weather_shared.py`.  `int(...) % 16`
always lands in `[0, 16)` (Python `%` returns a non-negative result for
a positive modulus, as does `Int.emod`), so the `getD` default is never
used. -/
def degrees_to_direction (deg : Option ℚ) : Option String :=
  match deg with
  | none => none
  | some d => some (directions16.getD (pyInt ((d + 11.25) / 22.5) % 16).toNat "N")

/-- `WEATHER_CODE_MAP` from `weather_shared.py`: WMO weather codes to
their descriptions. -/
def WEATHER_CODE_MAP : List (Nat × String) := [
  (0, "Cloud development not observed or not observable"),
  (1, "Clouds generally dissolving or becoming less developed"),
  (2, "State of sky on the whole unchanged"),
  (3, "Clouds generally forming or developing"),
  (4, "Visibility reduced by smoke, e.g. veldt or forest fires, industrial smoke or volcanic ashes"),
  (5, "Haze"),
  (6, "Widespread dust in suspension in the air, not raised by wind at or near the station at the time of observation"),
  (7, "Dust or sand raised by wind at or near the station, but no well-developed dust whirl(s) or sand whirl(s), and no duststorm or sandstorm seen"),
  (8, "Well-developed dust or sand whirl(s) seen at or near the station during the preceding hour or at the time of observation, but no duststorm or sandstorm"),
  (9, "Duststorm or sandstorm within sight at the time of observation, or at the station during the preceding hour"),
  (10, "Mist"),
  (11, "Patches of shallow fog or ice fog at the station, whether on land or sea, not deeper than about 2 m on land or 10 m at sea"),
  (12, "More or less continuous shallow fog or ice fog at the station, whether on land or sea, not deeper than about 2 m on land or 10 m at sea"),
  (13, "Lightning visible, no thunder heard"),
  (14, "Precipitation within sight, not reaching the ground or the surface of the sea"),
  (15, "Precipitation within sight, reaching the ground or the surface of the sea, but distant (i.e. estimated to be more than 5 km from the station)"),
  (16, "Precipitation within sight, reaching the ground or surface, near to but not at the station"),
  (17, "Thunderstorm, but no precipitation at the time of observation"),
  (18, "Squalls at or within sight of the station during the preceding hour or at the time of observation"),
  (19, "Funnel cloud(s) (tornado cloud or waterspout) at or within sight of the station during the preceding hour or at the time of observation"),
  (20, "Drizzle (not freezing) or snow grains, not falling as shower(s)"),
  (21, "Rain (not freezing) not falling as shower(s)"),
  (22, "Snow not falling as shower(s)"),
  (23, "Rain and snow or ice pellets, type (a) not falling as shower(s)"),
  (24, "Freezing drizzle or freezing rain not falling as shower(s)"),
  (25, "Shower(s) of rain"),
  (26, "Shower(s) of snow, or of rain and snow"),
  (27, "Shower(s) of hail*, or of rain and hail*"),
  (28, "Fog or ice fog at the station during the preceding hour but not at time of observation"),
  (29, "Thunderstorm (with or without precipitation) at the station during the preceding hour but not at time of observation"),
  (30, "Slight or moderate duststorm or sandstorm — has decreased during the preceding hour"),
  (31, "Slight or moderate duststorm or sandstorm — no appreciable change during the preceding hour"),
  (32, "Slight or moderate duststorm or sandstorm — has begun or has increased during the preceding hour"),
  (33, "Severe duststorm or sandstorm — has decreased during the preceding hour"),
  (34, "Severe duststorm or sandstorm — no appreciable change during the preceding hour"),
  (35, "Severe duststorm or sandstorm — has begun or has increased during the preceding hour"),
  (36, "Slight or moderate blowing snow generally low (below eye level)"),
  (37, "Heavy drifting snow generally low (below eye level)"),
  (38, "Slight or moderate blowing snow generally high (above eye level)"),
  (39, "Heavy drifting snow generally high (above eye level)"),
  (40, "Fog or ice fog at a distance at the time of observation, but not at the station during the preceding hour, the fog or ice fog extending to a level above that of the observer"),
  (41, "Fog or ice fog in patches"),
  (42, "Fog or ice fog, sky visible has become thinner during the preceding hour"),
  (43, "Fog or ice fog, sky invisible preceding hour"),
  (44, "Fog or ice fog, sky visible — no appreciable change during the preceding hour"),
  (45, "Fog or ice fog, sky invisible — no appreciable change during the preceding hour"),
  (46, "Fog or ice fog, sky visible has begun or become thicker during the preceding hour"),
  (47, "Fog or ice fog, sky invisible has begun or become thicker during the preceding hour"),
  (48, "Fog, depositing rime, sky visible"),
  (49, "Fog, depositing rime, sky invisible"),
  (50, "Drizzle, not freezing, intermittent slight at time of observation"),
  (51, "Drizzle, not freezing, continuous slight at time of observation"),
  (52, "Drizzle, not freezing, intermittent moderate at time of observation"),
  (53, "Drizzle, not freezing, continuous moderate at time of observation"),
  (54, "Drizzle, not freezing, intermittent heavy (dense) at time of observation"),
  (55, "Drizzle, not freezing, continuous heavy (dense) at time of observation"),
  (56, "Drizzle, freezing, slight"),
  (57, "Drizzle, freezing, moderate or heavy (dense)"),
  (58, "Drizzle and rain, slight"),
  (59, "Drizzle and rain, moderate or heavy"),
  (60, "Rain, not freezing, intermittent slight at time of observation"),
  (61, "Rain, not freezing, continuous slight at time of observation"),
  (62, "Rain, not freezing, intermittent moderate at time of observation"),
  (63, "Rain, not freezing, continuous moderate at time of observation"),
  (64, "Rain, not freezing, intermittent heavy at time of observation"),
  (65, "Rain, not freezing, continuous heavy at time of observation"),
  (66, "Rain, freezing, slight"),
  (67, "Rain, freezing, moderate or heavy (dense)"),
  (68, "Rain or drizzle and snow, slight"),
  (69, "Rain or drizzle and snow, moderate or heavy"),
  (70, "Intermittent fall of snowflakes slight at time of observation"),
  (71, "Continuous fall of snowflakes"),
  (72, "Intermittent fall of snowflakes moderate at time of observation"),
  (73, "Continuous fall of snowflakes moderate at time of observation"),
  (74, "Intermittent fall of snowflakes heavy at time of observation"),
  (75, "Continuous fall of snowflakes heavy at time of observation"),
  (76, "Diamond dust (with or without fog)"),
  (77, "Snow grains (with or without fog)"),
  (78, "Isolated star-like snow crystals (with or without fog)"),
  (79, "Ice pellets, type (a)"),
  (80, "Rain shower(s), slight"),
  (81, "Rain shower(s), moderate or heavy"),
  (82, "Rain shower(s), violent"),
  (83, "Shower(s) of rain and snow mixed, slight"),
  (84, "Shower(s) of rain and snow mixed, moderate or heavy"),
  (85, "Snow shower(s), slight"),
  (86, "Snow shower(s), moderate or heavy"),
  (87, "Shower(s) of snow pellets or ice pellets, type (b), with or without rain or rain and snow mixed — slight"),
  (88, "Shower(s) of snow pellets or ice pellets, type (b), with or without rain or rain and snow mixed — moderate or heavy"),
  (89, "Shower(s) of hail*, with or without rain or rain and snow mixed, not associated with thunder — slight"),
  (90, "Shower(s) of hail*, with or without rain or rain and snow mixed, not associated with thunder — moderate or heavy"),
  (91, "Slight rain at time of observation — thunderstorm during preceding hour but not at time of observation"),
  (92, "Moderate or heavy rain at time of observation — thunderstorm during preceding hour but not at time of observation"),
  (93, "Slight snow, or rain and snow mixed or hail** at time of observation — thunderstorm during preceding hour but not at time of observation"),
  (94, "Moderate or heavy snow, or rain and snow mixed or hail** at time of observation — thunderstorm during preceding hour but not at time of observation"),
  (95, "Thunderstorm, slight or moderate, without hail**, but with rain and/or snow at time of observation — thunderstorm at time of observation"),
  (96, "Thunderstorm, slight or moderate, with hail** at time of observation — thunderstorm at time of observation"),
  (97, "Thunderstorm, heavy, without hail**, but with rain and/or snow at time of observation — thunderstorm at time of observation"),
  (98, "Thunderstorm combined with duststorm or sandstorm at time of observation"),
  (99, "Thunderstorm, heavy, with hail** at time of observation — thunderstorm at time of observation")]

/-- Python truthiness of an optional string (`if friendly_name`,
`if not location`): `None` and the empty string are falsy. -/
def strTruthy : Option String → Bool
  | none => false
  | some s => !(s == "")

/-- One record of the AccuWeather location cache
(`accuweather_location_cache.json`): the `friendly_name` stored by a
coordinate lookup is `None`. -/
structure CacheEntry where
  friendly_name : Option String
  key : String
  lat : ℚ
  lon : ℚ
deriving DecidableEq, Repr

/-- `AccuWeatherClient.find_cached_key`: walk the cache; an entry hits
when the queried name is truthy and equals the stored name, or when both
queried coordinates are within `0.0001` of the stored ones. -/
def find_cached_key (cached_keys : List CacheEntry) (friendly_name : Option String)
    (lat lon : Option ℚ) : Option String :=
  match cached_keys with
  | [] => none
  | e :: rest =>
    if strTruthy friendly_name = true ∧ e.friendly_name = friendly_name then some e.key
    else
      match lat, lon with
      | some la, some lo =>
        if |e.lat - la| < 0.0001 ∧ |e.lon - lo| < 0.0001 then some e.key
        else find_cached_key rest friendly_name lat lon
      | _, _ => find_cached_key rest friendly_name lat lon

/-- A location record returned by the AccuWeather location API (the
`Key` and `GeoPosition` fields the client reads). -/
structure GeoPosition where
  key : String
  lat : ℚ
  lon : ℚ
deriving DecidableEq, Repr

/-- The cache-miss path of `AccuWeatherClient.get_location_key`: issue
the geoposition search (for coordinates) or the city search (for a
truthy name), append the new entry and persist.  The two API outcomes
are oracle arguments. -/
def get_location_key_miss (cached_keys : List CacheEntry) (friendly_name : Option String)
    (lat lon : Option ℚ)
    (geoposition_api : Except PyErr GeoPosition)
    (citysearch_api : Except PyErr (List GeoPosition)) :
    Except PyErr (String × List CacheEntry) :=
  match lat, lon with
  | some _, some _ =>
    match geoposition_api with
    | .error e => .error e
    | .ok d => .ok (d.key, cached_keys ++ [⟨friendly_name, d.key, d.lat, d.lon⟩])
  | _, _ =>
    if strTruthy friendly_name then
      match citysearch_api with
      | .error e => .error e
      | .ok [] => .error .runtimeError
      | .ok (d :: _) => .ok (d.key, cached_keys ++ [⟨friendly_name, d.key, d.lat, d.lon⟩])
    else .error .valueError

/-- `AccuWeatherClient.get_location_key`: return the cached key when the
cache lookup yields a truthy key (Python `if cached_key:`), leaving the
cache untouched; otherwise call the API and append to the cache.  The
result pairs the resolved key with the cache contents after the call. -/
def get_location_key (cached_keys : List CacheEntry) (friendly_name : Option String)
    (lat lon : Option ℚ)
    (geoposition_api : Except PyErr GeoPosition)
    (citysearch_api : Except PyErr (List GeoPosition)) :
    Except PyErr (String × List CacheEntry) :=
  match find_cached_key cached_keys friendly_name lat lon with
  | some k =>
    if k ≠ "" then .ok (k, cached_keys)
    else get_location_key_miss cached_keys friendly_name lat lon geoposition_api citysearch_api
  | none => get_location_key_miss cached_keys friendly_name lat lon geoposition_api citysearch_api

/-- One candidate of an Open-Meteo geocoding response (the fields
`geocode` in `open_meteo_scraper.py` reads, each through `.get`). -/
structure GeoCandidate where
  country_code : Option String
  admin1 : Option String
  feature_code : Option String
  latitude : Option ℚ
  longitude : Option ℚ
deriving DecidableEq, Repr

/-- The three `continue` filters of `geocode`'s loop: exact country
match, exact region (admin1) match, populated-place feature code. -/
def geocode_keep (state country : String) (r : GeoCandidate) : Bool :=
  r.country_code == some country && r.admin1 == some state && r.feature_code == some "PPL"

/-- `geocode` from `open_meteo_scraper.py`, applied to the outcome of
the geocoding HTTP call: `none` models a request failure (caught and
turned into `None`) or a falsy response body; a successful response
carries the `results` list.  The function keeps the candidates passing
all three filters and returns the first of them, or `None`. -/
def geocode (resp : Option (List GeoCandidate)) (state country : String) :
    Option GeoCandidate :=
  match resp with
  | none => none
  | some results =>
    match results.filter (geocode_keep state country) with
    | [] => none
    | r :: _ => some r

/-- Scalar JSON values of provider payload fields.  Nested objects do
not influence any property proved here, so payload values are modelled
as scalars. -/
inductive PyVal where
  | null
  | num (q : ℚ)
  | str (s : String)
deriving DecidableEq, Repr

/-- Python dict bracket access `data[k]`: raises `KeyError` when the key
is absent. -/
def pyGet (data : List (String × PyVal)) (k : String) : Except PyErr PyVal :=
  match data.find? (fun p => p.1 == k) with
  | some p => .ok p.2
  | none => .error (.keyError k)

/-- Read a payload value as an optional float, as Python arithmetic on
it would: `None` propagates, a number is used, a string raises
`TypeError`. -/
def PyVal.asFloat : PyVal → Except PyErr (Option ℚ)
  | .null => .ok none
  | .num q => .ok (some q)
  | .str _ => .error .typeError

/-- The canonical per-instant reading (`WeatherData` in
`weather_objects.py` / `weather_shared.py`): every field starts as
`None`. -/
structure WeatherData where
  temperature : Option PyVal := none
  feels_like : Option PyVal := none
  wind_chill : Option PyVal := none
  heat_index : Option PyVal := none
  dew_point : Option PyVal := none
  wind_speed : Option PyVal := none
  wind_degree : Option PyVal := none
  wind_direction : Option PyVal := none
  wind_gust : Option PyVal := none
  humidity : Option PyVal := none
  pressure : Option PyVal := none
  precipitation : Option PyVal := none
  visibility : Option PyVal := none
  cloud_cover : Option PyVal := none
  uv : Option PyVal := none
  icon : Option PyVal := none
  timestamp : Option PyVal := none
  condition : Option PyVal := none
  condition_str : Option PyVal := none
deriving DecidableEq, Repr

/-- `parse_weatherapi_data` from `weatherapi/weatherapi_utils.py`: every
field is read with bracket access, in source order, so the first absent
key raises `KeyError` — including the `uv` key. -/
def parse_weatherapi_data (data : List (String × PyVal)) (units : String) :
    Except PyErr WeatherData :=
  if units = "imperial" then do
    let temperature ← pyGet data "temp_f"
    let feels_like ← pyGet data "feelslike_f"
    let wind_chill ← pyGet data "windchill_f"
    let heat_index ← pyGet data "heatindex_f"
    let dew_point ← pyGet data "dewpoint_f"
    let wind_speed ← pyGet data "wind_mph"
    let wind_degree ← pyGet data "wind_degree"
    let wind_direction ← pyGet data "wind_dir"
    let wind_gust ← pyGet data "gust_mph"
    let humidity ← pyGet data "humidity"
    let pressure ← pyGet data "pressure_in"
    let precipitation ← pyGet data "precip_in"
    let visibility ← pyGet data "vis_miles"
    let cloud_cover ← pyGet data "cloud"
    let uv ← pyGet data "uv"
    let timestamp ← pyGet data "last_updated"
    let condition ← pyGet data "condition"
    .ok { temperature := some temperature, feels_like := some feels_like,
          wind_chill := some wind_chill, heat_index := some heat_index,
          dew_point := some dew_point, wind_speed := some wind_speed,
          wind_degree := some wind_degree, wind_direction := some wind_direction,
          wind_gust := some wind_gust, humidity := some humidity,
          pressure := some pressure, precipitation := some precipitation,
          visibility := some visibility, cloud_cover := some cloud_cover,
          uv := some uv, timestamp := some timestamp, condition := some condition }
  else do
    let temperature ← pyGet data "temp_c"
    let feels_like ← pyGet data "feelslike_c"
    let wind_chill ← pyGet data "windchill_c"
    let heat_index ← pyGet data "heatindex_c"
    let dew_point ← pyGet data "dewpoint_c"
    let wind_speed ← pyGet data "wind_kph"
    let wind_degree ← pyGet data "wind_degree"
    let wind_direction ← pyGet data "wind_dir"
    let wind_gust ← pyGet data "gust_kph"
    let humidity ← pyGet data "humidity"
    let pressure ← pyGet data "pressure_mb"
    let precipitation ← pyGet data "precip_in"
    let visibility ← pyGet data "vis_km"
    let cloud_cover ← pyGet data "cloud"
    let uv ← pyGet data "uv"
    let timestamp ← pyGet data "last_updated"
    let condition ← pyGet data "condition"
    .ok { temperature := some temperature, feels_like := some feels_like,
          wind_chill := some wind_chill, heat_index := some heat_index,
          dew_point := some dew_point, wind_speed := some wind_speed,
          wind_degree := some wind_degree, wind_direction := some wind_direction,
          wind_gust := some wind_gust, humidity := some humidity,
          pressure := some pressure, precipitation := some precipitation,
          visibility := some visibility, cloud_cover := some cloud_cover,
          uv := some uv, timestamp := some timestamp, condition := some condition }

/-- The `WEATHER_CODE_MAP[code]` bracket lookup of
`parse_open_meteo_data`: an integer-keyed dict, so any value not among
the map keys raises `KeyError` (the key rendered as text here). -/
def weatherCodeLookup (v : PyVal) : Except PyErr String :=
  match v with
  | .num q =>
    match WEATHER_CODE_MAP.find? (fun p => (p.1 : ℚ) == q) with
    | some p => .ok p.2
    | none => .error (.keyError "weathercode value")
  | _ => .error (.keyError "weathercode value")

/-- `parse_open_meteo_data` from `open_meteo/open_meteo_config.py`: the
payload is mapped into the reading only when `units == "imperial"`; for
any other units value the fresh all-`None` `WeatherData` is returned
unchanged. -/
def parse_open_meteo_data (data : List (String × PyVal)) (units : String) :
    Except PyErr WeatherData :=
  if units = "imperial" then do
    let temperature ← pyGet data "temperature"
    let windspeed ← pyGet data "windspeed"
    let winddirection ← pyGet data "winddirection"
    let wdval ← winddirection.asFloat
    let weathercode ← pyGet data "weathercode"
    let desc ← weatherCodeLookup weathercode
    .ok { temperature := some temperature, wind_speed := some windspeed,
          wind_degree := some winddirection,
          wind_direction := (degrees_to_direction wdval).map PyVal.str,
          condition_str := some (.str desc) }
  else
    .ok {}

/-- The normalized per-source report (`WeatherReport` in
`weather_shared.py`); wall-clock fields (`fetched_at`) are omitted from
the model. -/
structure WeatherReport where
  source : Option String := none
  location : Option String := none
  latitude : Option PyVal := none
  longitude : Option PyVal := none
  current : Option WeatherData := none
  hourly : Option (List WeatherData) := none
  daily : Option (List WeatherData) := none
  astronomy : Option PyVal := none
  alerts : Option (List PyVal) := none
deriving DecidableEq, Repr

/-- The aggregated view (`WeatherView` in `weather_shared.py`);
`generated_at` (wall clock) is omitted from the model.  `reports` holds
optional entries because `get_weather` appends the raw return value of
`get_open_meteo_data`, which can be `None`. -/
structure WeatherView where
  app_name : Option String := none
  app_version : Option ℚ := none
  units : Option String := none
  timezone : Option String := none
  summary : Option String := none
  reports : Option (List (Option WeatherReport)) := none
deriving DecidableEq, Repr

/-- The fields of a successful Open-Meteo forecast response that
`get_open_meteo_data` reads: the `current_weather` sub-dict and the
`latitude`/`longitude` echo fields. -/
structure OMResp where
  current_weather : List (String × PyVal)
  latitude : PyVal
  longitude : PyVal
deriving DecidableEq, Repr

/-- Python f-string rendering of a payload value (number formatting is
abstracted; no property below depends on the rendered text). -/
def pyValFmt : PyVal → String
  | .null => "None"
  | .num q => toString q
  | .str s => s

/-- The report constructed at the end of `get_open_meteo_data`. -/
def mk_open_meteo_report (loc : Loc) (d : OMResp) (cur : WeatherData) : WeatherReport :=
  { source := some "open_meteo",
    location := some (
      if strTruthy loc.city && strTruthy loc.state then
        loc.city.getD "" ++ ", " ++ loc.state.getD ""
      else pyValFmt d.latitude ++ "," ++ pyValFmt d.longitude),
    latitude := some d.latitude, longitude := some d.longitude,
    current := some cur }

/-- `get_open_meteo_data` from `open_meteo/open_meteo_scraper.py`.  For
a city/state location the geocode outcome gates the call: `None` makes
the function print and return `None`.  The forecast request outcome is
the `fetch` oracle. -/
def get_open_meteo_data (location units : String) (geo : Option GeoCandidate)
    (fetch : Except PyErr OMResp) : Except PyErr (Option WeatherReport) := do
  let loc ← parse_location location
  if loc.city.isSome ∧ loc.state.isSome then
    match geo with
    | none => pure none
    | some _ => do
      let d ← fetch
      let cur ← parse_open_meteo_data d.current_weather units
      pure (some (mk_open_meteo_report loc d cur))
  else do
    let d ← fetch
    let cur ← parse_open_meteo_data d.current_weather units
    pure (some (mk_open_meteo_report loc d cur))

/-- `get_open_weather_data` from
`open_weather/open_weather_map_scraper.py`: parse the location, then the
HTTP-fetch-and-translate outcome is the oracle. -/
def get_open_weather_data (location units : String)
    (fetch : Except PyErr WeatherReport) : Except PyErr WeatherReport := do
  let _ ← parse_location location
  fetch

/-- `get_weatherapi_data` from `weatherapi/weatherapi_scraper.py`: parse
the location, then the HTTP-fetch-and-translate outcome is the oracle. -/
def get_weatherapi_data (location units : String)
    (fetch : Except PyErr WeatherReport) : Except PyErr WeatherReport := do
  let _ ← parse_location location
  fetch

/-- `get_weatherbit_data` from `weatherbit/weatherbit_scraper.py`: parse
the location, then fetch; the caller discards the result. -/
def get_weatherbit_data (location units : String)
    (fetch : Except PyErr Unit) : Except PyErr Unit := do
  let _ ← parse_location location
  fetch

/-- The configuration dict consumed by `get_weather` (the keys it
reads; `display_info` only gates progress printing and is assumed
present). -/
structure Config where
  location : Option String := none
  default_location : Option String := none
  locations : List (String × String) := []
  units : Option String := none
  apis : List (String × Bool) := []
  display_info : Bool := false
deriving DecidableEq, Repr

/-- The location-selection prologue of `get_weather`: take
`config["location"]` when truthy, otherwise look the default key up in
the `locations` dict; raise `ValueError` when the result is falsy. -/
def effectiveLocation (cfg : Config) : Except PyErr String :=
  let l1 :=
    if strTruthy cfg.location then cfg.location
    else
      match cfg.default_location with
      | some dk => if dk ≠ "" then cfg.locations.lookup dk else none
      | none => none
  match l1 with
  | some l => if l ≠ "" then .ok l else .error .valueError
  | none => .error .valueError

/-- `enabled_apis`: the api names whose `enabled` flag is truthy. -/
def enabledApis (cfg : Config) : List String :=
  (cfg.apis.filter (fun p => p.2)).map (fun p => p.1)

/-- Outcomes of the network interactions of one `get_weather` call, one
oracle per call site. -/
structure Oracles where
  nws_geocode : Option GeoCandidate
  nws_fetch : Except PyErr WeatherReport
  om_geocode : Option GeoCandidate
  om_fetch : Except PyErr OMResp
  ow_fetch : Except PyErr WeatherReport
  wapi_fetch : Except PyErr WeatherReport
  wb_fetch : Except PyErr Unit
deriving Repr

/-- The accuweather branch of `get_weather`.  After resolving a
city/state string, the source calls `get_accuweather_data(city_state)` —
one argument for a two-parameter function — so Python raises `TypeError`
at the call site, before the adapter body runs, and the surrounding
`except RuntimeError` clause does not catch it.  (On the coordinate
path, a failed reverse geocode returns `None` and subscripting it raises
`TypeError` even earlier.)  The branch therefore always raises once
entered. -/
def accuBranch (enabled : List String) (location : String) : Except PyErr Unit :=
  if enabled.contains "accuweather" then do
    let _ ← parse_location location
    throw .typeError
  else pure ()

/-- The national_weather_service branch of `get_weather`: a `none`
result models the source's early `return None` when a city/state
location cannot be geocoded; otherwise the branch yields the report
entries it appends. -/
def nwsBranch (enabled : List String) (location : String) (o : Oracles) :
    Except PyErr (Option (List (Option WeatherReport))) :=
  if enabled.contains "national_weather_service" then do
    let loc ← parse_location location
    if loc.city.isSome ∧ loc.state.isSome then
      match o.nws_geocode with
      | none => pure none
      | some _ => do
        let r ← o.nws_fetch
        pure (some [some r])
    else do
      let r ← o.nws_fetch
      pure (some [some r])
  else pure (some [])

/-- The `WeatherView` constructed at the end of `get_weather`. -/
def mkWeatherView (units : String) (results : List (Option WeatherReport)) : WeatherView :=
  { app_name := some "Bornino Weather App", app_version := some 0.1,
    units := some units, timezone := some "America/Los_Angeles (GMT-8)",
    summary := none, reports := some results }

/-- `get_weather` from `weather_scraper.py`: resolve the location and
units, then run the provider branches in their fixed source order,
appending to `results`.  A `.ok none` value is the source's
`return None`; a `.error e` value is an uncaught exception escaping
`get_weather`. -/
def get_weather (cfg : Config) (o : Oracles) : Except PyErr (Option WeatherView) := do
  let location ← effectiveLocation cfg
  let units := cfg.units.getD "imperial"
  let enabled := enabledApis cfg
  let _ ← accuBranch enabled location
  match (← nwsBranch enabled location o) with
  | none => pure none
  | some rs1 => do
    let rs2 ←
      if enabled.contains "open_meteo" then do
        let omr ← get_open_meteo_data location units o.om_geocode o.om_fetch
        pure (rs1 ++ [omr])
      else pure rs1
    let rs3 ←
      if enabled.contains "open_weather" then do
        let r ← get_open_weather_data location units o.ow_fetch
        pure (rs2 ++ [some r])
      else pure rs2
    let rs4 ←
      if enabled.contains "weatherapi" then do
        let r ← get_weatherapi_data location units o.wapi_fetch
        pure (rs3 ++ [some r])
      else pure rs3
    let _ ←
      if enabled.contains "weatherbit" then get_weatherbit_data location units o.wb_fetch
      else pure ()
    pure (some (mkWeatherView units rs4))

/-! Helper lemmas for the cloud-cover maximum and the rounding bound. -/

lemma foldl_max_ub (ps : List ℚ) (p : ℚ) : ∀ q ∈ p :: ps, q ≤ ps.foldl max p := by
  induction ps generalizing p with
  | nil => intro q hq; simp only [List.mem_singleton] at hq; simp [hq]
  | cons r rs ih =>
    intro q hq
    simp only [List.foldl_cons]
    have hbase : max p r ≤ rs.foldl max (max p r) :=
      ih (max p r) (max p r) (List.mem_cons_self _ _)
    rcases List.mem_cons.mp hq with rfl | h
    · exact le_trans (le_max_left q r) hbase
    · rcases List.mem_cons.mp h with rfl | h1
      · exact le_trans (le_max_right p q) hbase
      · exact ih (max p r) q (List.mem_cons_of_mem _ h1)

lemma foldl_max_mem (ps : List ℚ) (p : ℚ) : ps.foldl max p ∈ p :: ps := by
  induction ps generalizing p with
  | nil => simp
  | cons r rs ih =>
    simp only [List.foldl_cons]
    rcases List.mem_cons.mp (ih (max p r)) with h1 | h1
    · rcases max_choice p r with hc | hc <;> rw [h1, hc]
      · exact List.mem_cons_self _ _
      · exact List.mem_cons_of_mem _ (List.mem_cons_self _ _)
    · exact List.mem_cons_of_mem _ (List.mem_cons_of_mem _ h1)

lemma abs_round1_sub (q : ℚ) : |round1 q - q| ≤ 1 / 20 := by
  have h := abs_sub_round (10 * q)
  rw [abs_sub_comm] at h
  unfold round1
  have heq : ((round (10 * q) : ℤ) : ℚ) / 10 - q = ((round (10 * q) : ℤ) - 10 * q) / 10 := by
    ring
  rw [heq, abs_div, abs_of_pos (by norm_num : (0:ℚ) < 10)]
  linarith

lemma tenth_gap (m n : ℤ) (h : |(m:ℚ)/10 - (n:ℚ)/10| ≤ 14/100) :
    |(m:ℚ)/10 - (n:ℚ)/10| ≤ 1/10 := by
  have h1 : (m:ℚ)/10 - (n:ℚ)/10 = ((m - n : ℤ):ℚ)/10 := by push_cast; ring
  rw [h1] at h ⊢
  rw [abs_div, abs_of_pos (by norm_num : (0:ℚ) < 10)] at h ⊢
  rw [← Int.cast_abs] at h ⊢
  have h4 : |m - n| ≤ 1 := by
    by_contra hc
    push_neg at hc
    have h2 : (2:ℤ) ≤ |m - n| := hc
    have h3 : (2:ℚ) ≤ ((|m - n| : ℤ) : ℚ) := by exact_mod_cast h2
    linarith
  have h5 : ((|m - n| : ℤ) : ℚ) ≤ 1 := by exact_mod_cast h4
  linarith

/-- C3: `set_cloud_cover` maps each recognized layer code through
`coverage_map` (SKC 0, FEW 12.5, SCT 37.5, BKN 75, OVC 100) and returns
the maximum mapped percentage; the SCT/OVC example yields 100, and an
empty or absent layer sequence yields `None`. -/
theorem set_cloud_cover_max :
    (∀ (layers : List CloudLayer), layers ≠ [] →
        (∀ l ∈ layers, ∃ p, layerPercent l = some p) →
        ∃ m, set_cloud_cover (some layers) = some m ∧
          (∀ l ∈ layers, ∀ p, layerPercent l = some p → p ≤ m) ∧
          (∃ l ∈ layers, layerPercent l = some m)) ∧
    coverage_map "SKC" = some 0 ∧ coverage_map "FEW" = some 12.5 ∧
    coverage_map "SCT" = some 37.5 ∧ coverage_map "BKN" = some 75 ∧
    coverage_map "OVC" = some 100 ∧
    set_cloud_cover (some [⟨some "SCT"⟩, ⟨some "OVC"⟩]) = some 100 ∧
    set_cloud_cover (some []) = none ∧
    set_cloud_cover none = none := by
  refine ⟨?_, rfl, rfl, rfl, rfl, rfl, ?_, rfl, rfl⟩
  · intro layers hne hall
    cases layers with
    | nil => exact absurd rfl hne
    | cons l0 rest =>
      obtain ⟨p0, hp0⟩ := hall l0 (List.mem_cons_self _ _)
      have hfm : (l0 :: rest).filterMap layerPercent = p0 :: rest.filterMap layerPercent := by
        simp [List.filterMap_cons, hp0]
      refine ⟨(rest.filterMap layerPercent).foldl max p0, ?_, ?_, ?_⟩
      · simp [set_cloud_cover, hfm]
      · intro l hl p hp
        have hmem : p ∈ (l0 :: rest).filterMap layerPercent :=
          List.mem_filterMap.mpr ⟨l, hl, hp⟩
        rw [hfm] at hmem
        exact foldl_max_ub _ _ p hmem
      · have hmem := foldl_max_mem (rest.filterMap layerPercent) p0
        rw [← hfm] at hmem
        obtain ⟨l, hl, hlp⟩ := List.mem_filterMap.mp hmem
        exact ⟨l, hl, hlp⟩
  · have h : set_cloud_cover (some [⟨some "SCT"⟩, ⟨some "OVC"⟩]) = some (max 37.5 100) := rfl
    rw [h, max_eq_right (by norm_num : (37.5:ℚ) ≤ 100)]

/-- Witness for `set_cloud_cover_max` at a concrete one-layer input. -/
theorem set_cloud_cover_max_witness :
    ∃ m, set_cloud_cover (some [CloudLayer.mk (some "BKN")]) = some m ∧
      (∀ l ∈ [CloudLayer.mk (some "BKN")], ∀ p, layerPercent l = some p → p ≤ m) ∧
      (∃ l ∈ [CloudLayer.mk (some "BKN")], layerPercent l = some m) :=
  set_cloud_cover_max.1 [⟨some "BKN"⟩] (by simp)
    (by intro l hl; simp only [List.mem_singleton] at hl; exact ⟨75, hl ▸ rfl⟩)

/-- C4: converting a Celsius value to imperial, back to metric and to
imperial again reproduces the first imperial value within 0.1, the bound
induced by the fixed one-decimal rounding of `set_temp`. -/
theorem set_temp_round_trip (v : ℚ) :
    ∃ x y z : ℚ,
      set_temp (some v) "wmoUnit:degC" "imperial" = some x ∧
      set_temp (some x) "wmoUnit:degF" "metric" = some y ∧
      set_temp (some y) "wmoUnit:degC" "imperial" = some z ∧
      |z - x| ≤ 0.1 := by
  refine ⟨round1 (32 + v * 1.8), round1 ((round1 (32 + v * 1.8) - 32) / 1.8),
    round1 (32 + round1 ((round1 (32 + v * 1.8) - 32) / 1.8) * 1.8), rfl, rfl, rfl, ?_⟩
  have h1 : |round1 ((round1 (32 + v * 1.8) - 32) / 1.8) -
      (round1 (32 + v * 1.8) - 32) / 1.8| ≤ 1/20 := abs_round1_sub _
  have h2 : |round1 (32 + round1 ((round1 (32 + v * 1.8) - 32) / 1.8) * 1.8) -
      (32 + round1 ((round1 (32 + v * 1.8) - 32) / 1.8) * 1.8)| ≤ 1/20 := abs_round1_sub _
  have h3 : (32 + round1 ((round1 (32 + v * 1.8) - 32) / 1.8) * 1.8) - round1 (32 + v * 1.8)
      = 1.8 * (round1 ((round1 (32 + v * 1.8) - 32) / 1.8) -
          (round1 (32 + v * 1.8) - 32) / 1.8) := by ring
  have h4 : |(32 + round1 ((round1 (32 + v * 1.8) - 32) / 1.8) * 1.8) -
      round1 (32 + v * 1.8)| ≤ 9/100 := by
    rw [h3, abs_mul, abs_of_pos (by norm_num : (0:ℚ) < 1.8)]
    have := mul_le_mul_of_nonneg_left h1 (by norm_num : (0:ℚ) ≤ 1.8)
    linarith
  have h5 : |round1 (32 + round1 ((round1 (32 + v * 1.8) - 32) / 1.8) * 1.8) -
      round1 (32 + v * 1.8)| ≤ 14/100 := by
    have htri := abs_sub_le
      (round1 (32 + round1 ((round1 (32 + v * 1.8) - 32) / 1.8) * 1.8))
      (32 + round1 ((round1 (32 + v * 1.8) - 32) / 1.8) * 1.8)
      (round1 (32 + v * 1.8))
    linarith
  have hgap := tenth_gap
    (round (10 * (32 + round1 ((round1 (32 + v * 1.8) - 32) / 1.8) * 1.8)))
    (round (10 * (32 + v * 1.8))) h5
  have h01 : (0.1 : ℚ) = 1/10 := by norm_num
  rw [h01]
  exact hgap

/-- C5 counterexample: `set_speed` with an unrecognized unit tag returns
the value unchanged, which is not the one-decimal rounding the claim
requires. -/
theorem set_speed_fallback_unrounded :
    set_speed (some 1.23) "wmoUnit:kn" "imperial" = some 1.23 ∧
    round1 (1.23 : ℚ) ≠ 1.23 := by
  constructor
  · rfl
  · unfold round1
    rw [round_eq]
    norm_num

/-- C5 amended: in the compatibility fallback (unit tag unrecognized or
already matching the target system) `set_temp` still applies its
one-decimal rounding, but `set_speed` returns the value unchanged with
no rounding applied. -/
theorem conversion_fallback_behavior :
    (∀ (v : ℚ) (u t : String),
        ¬(t = "imperial" ∧ u = "wmoUnit:degC") →
        ¬(t = "metric" ∧ u = "wmoUnit:degF") →
        set_temp (some v) u t = some (round1 v)) ∧
    (∀ (v : ℚ) (u t : String),
        ¬(t = "imperial" ∧ u = "wmoUnit:m_s-1") →
        ¬(t = "imperial" ∧ u = "wmoUnit:km_h-1") →
        ¬(t = "metric" ∧ u = "wmoUnit:mph") →
        set_speed (some v) u t = some v) := by
  constructor
  · intro v u t h1 h2
    simp only [set_temp, if_neg h1, if_neg h2]
  · intro v u t h1 h2 h3
    simp only [set_speed, if_neg h1, if_neg h2, if_neg h3]
    split <;> rfl

/-- Witness for `conversion_fallback_behavior` at concrete inputs. -/
theorem conversion_fallback_behavior_witness :
    set_temp (some 2.34) "wmoUnit:K" "imperial" = some (round1 2.34) ∧
    set_speed (some 1.25) "wmoUnit:kn" "metric" = some 1.25 :=
  ⟨conversion_fallback_behavior.1 2.34 "wmoUnit:K" "imperial" (by decide) (by decide),
   conversion_fallback_behavior.2 1.25 "wmoUnit:kn" "metric" (by decide) (by decide) (by decide)⟩

/-- C6: `parse_location` classifies an input with exactly one comma
(two split parts) whose parts both parse as floats as coordinates, an
input with exactly one comma otherwise as city/state, and any other
comma count raises `ValueError` — together with the three concrete
examples of the specification. -/
theorem parse_location_classification :
    (∀ (s : String) (p0 p1 : List Char), pySplit ',' s.toList = [p0, p1] →
        (∀ la lo, pyFloat? p0 = some la → pyFloat? p1 = some lo →
          parse_location s = .ok ⟨some la, some lo, none, none⟩) ∧
        ((pyFloat? p0 = none ∨ pyFloat? p1 = none) →
          parse_location s = .ok ⟨none, none, some (String.mk (pyStrip p0)),
            some (String.mk (pyStrip p1))⟩)) ∧
    (∀ (s : String), (pySplit ',' s.toList).length ≠ 2 →
        parse_location s = .error .valueError) ∧
    parse_location "38.6052,-121.34272"
      = .ok ⟨some 38.6052, some (-121.34272), none, none⟩ ∧
    parse_location "Sacramento,CA" = .ok ⟨none, none, some "Sacramento", some "CA"⟩ ∧
    parse_location "a,b,c" = .error .valueError := by
  refine ⟨?_, ?_, ?_, rfl, rfl⟩
  · intro s p0 p1 hsp
    constructor
    · intro la lo h0 h1
      simp only [parse_location, hsp, h0, h1]
    · intro hcase
      rcases hcase with h0 | h1
      · simp only [parse_location, hsp, h0]
      · cases h0 : pyFloat? p0 with
        | none => simp only [parse_location, hsp, h0]
        | some la => simp only [parse_location, hsp, h0, h1]
  · intro s hlen
    match hsp : pySplit ',' s.toList with
    | [] => simp only [parse_location, hsp]
    | [p0] => simp only [parse_location, hsp]
    | [p0, p1] => exact absurd (by rw [hsp]; rfl) hlen
    | p0 :: p1 :: p2 :: rest => simp only [parse_location, hsp]
  · have h : parse_location "38.6052,-121.34272"
        = .ok ⟨some ((1:ℚ) * (((38:ℕ):ℚ) + ((6052:ℕ):ℚ) / 10 ^ (4:ℕ))),
               some ((-1:ℚ) * (((121:ℕ):ℚ) + ((34272:ℕ):ℚ) / 10 ^ (5:ℕ))),
               none, none⟩ := rfl
    rw [h]
    norm_num

/-- Witness for `parse_location_classification` at concrete inputs. -/
theorem parse_location_classification_witness :
    parse_location "x1,y2" = .ok ⟨none, none, some "x1", some "y2"⟩ ∧
    parse_location "1.5,2.5" = .ok ⟨some 1.5, some 2.5, none, none⟩ ∧
    parse_location "a,b,c" = .error .valueError := by
  refine ⟨?_, ?_, ?_⟩
  · exact (parse_location_classification.1 "x1,y2" "x1".toList "y2".toList rfl).2
      (Or.inl rfl)
  · have h0 : pyFloat? "1.5".toList
        = some ((1:ℚ) * (((1:ℕ):ℚ) + ((5:ℕ):ℚ) / 10 ^ (1:ℕ))) := rfl
    have h1 : pyFloat? "2.5".toList
        = some ((1:ℚ) * (((2:ℕ):ℚ) + ((5:ℕ):ℚ) / 10 ^ (1:ℕ))) := rfl
    have h0' : pyFloat? "1.5".toList = some 1.5 := by rw [h0]; norm_num
    have h1' : pyFloat? "2.5".toList = some 2.5 := by rw [h1]; norm_num
    exact (parse_location_classification.1 "1.5,2.5" "1.5".toList "2.5".toList rfl).1
      1.5 2.5 h0' h1'
  · exact parse_location_classification.2.1 "a,b,c" (by decide)

/-- The coordinate-tolerance test of `find_cached_key`, as a predicate
on cache entries. -/
def coordMatch (la lo : ℚ) (e : CacheEntry) : Bool :=
  decide (|e.lat - la| < 0.0001 ∧ |e.lon - lo| < 0.0001)

lemma coordMatch_true {la lo : ℚ} {e : CacheEntry}
    (h : |e.lat - la| < 0.0001 ∧ |e.lon - lo| < 0.0001) : coordMatch la lo e = true :=
  decide_eq_true h

lemma coordMatch_prop {la lo : ℚ} {e : CacheEntry} (h : coordMatch la lo e = true) :
    |e.lat - la| < 0.0001 ∧ |e.lon - lo| < 0.0001 :=
  of_decide_eq_true h

lemma find?_cons_pos {α : Type} (p : α → Bool) (a : α) (l : List α) (h : p a = true) :
    (a :: l).find? p = some a := by
  simp [List.find?, h]

lemma find?_cons_neg {α : Type} (p : α → Bool) (a : α) (l : List α) (h : p a = false) :
    (a :: l).find? p = l.find? p := by
  simp [List.find?, h]

/-- `find_cached_key` with no friendly name is the first-match
coordinate search over the cache. -/
lemma find_cached_key_coords (entries : List CacheEntry) (la lo : ℚ) :
    find_cached_key entries none (some la) (some lo)
      = (entries.find? (coordMatch la lo)).map (fun e => e.key) := by
  induction entries with
  | nil => rfl
  | cons e rest ih =>
    simp only [find_cached_key]
    rw [if_neg (by simp [strTruthy])]
    by_cases h : |e.lat - la| < 0.0001 ∧ |e.lon - lo| < 0.0001
    · rw [if_pos h, find?_cons_pos (coordMatch la lo) e rest (coordMatch_true h)]
      rfl
    · rw [if_neg h, find?_cons_neg (coordMatch la lo) e rest (by simpa [coordMatch] using h)]
      exact ih

/-- C7: a cache entry within the 1e-4 coordinate tolerance (the first
such entry, whose stored key is truthy) makes `get_location_key` return
its cached key with the cache unchanged and both API oracles unused; a
name-based hit requires exact string equality with the stored alias; and
the concrete query (38.6052, -121.34272) hits the cached entry at
(38.60525, -121.342715). -/
theorem get_location_key_cache_hit :
    (∀ (entries : List CacheEntry) (la lo : ℚ) (e : CacheEntry),
        entries.find? (coordMatch la lo) = some e →
        e.key ≠ "" →
        e ∈ entries ∧ |e.lat - la| < 0.0001 ∧ |e.lon - lo| < 0.0001 ∧
        ∀ gapi capi, get_location_key entries none (some la) (some lo) gapi capi
          = .ok (e.key, entries)) ∧
    (∀ (entries : List CacheEntry) (name k : String),
        find_cached_key entries (some name) none none = some k →
        ∃ e ∈ entries, e.friendly_name = some name ∧ e.key = k) ∧
    (∀ gapi capi,
        get_location_key [⟨none, "347625", 38.60525, -121.342715⟩] none
          (some 38.6052) (some (-121.34272)) gapi capi
          = .ok ("347625", [⟨none, "347625", 38.60525, -121.342715⟩])) := by
  refine ⟨?_, ?_, ?_⟩
  · intro entries la lo e hfind hkey
    have hmem : e ∈ entries := List.mem_of_find?_eq_some hfind
    have hpred : |e.lat - la| < 0.0001 ∧ |e.lon - lo| < 0.0001 :=
      coordMatch_prop (List.find?_some hfind)
    refine ⟨hmem, hpred.1, hpred.2, ?_⟩
    intro gapi capi
    simp only [get_location_key, find_cached_key_coords, hfind, Option.map_some']
    rw [if_pos hkey]
  · intro entries name k h
    induction entries with
    | nil => simp [find_cached_key] at h
    | cons e rest ih =>
      simp only [find_cached_key] at h
      by_cases h1 : strTruthy (some name) = true ∧ e.friendly_name = some name
      · rw [if_pos h1] at h
        exact ⟨e, List.mem_cons_self _ _, h1.2, (Option.some.injEq _ _).mp h⟩
      · rw [if_neg h1] at h
        obtain ⟨e', he', hn, hk⟩ := ih h
        exact ⟨e', List.mem_cons_of_mem _ he', hn, hk⟩
  · intro gapi capi
    have hc : |(38.60525:ℚ) - 38.6052| < 0.0001 ∧
        |(-121.342715:ℚ) - (-121.34272)| < 0.0001 := by
      constructor <;> rw [abs_sub_lt_iff] <;> constructor <;> norm_num
    have hf : find_cached_key [⟨none, "347625", 38.60525, -121.342715⟩] none
        (some 38.6052) (some (-121.34272)) = some "347625" := by
      simp only [find_cached_key]
      rw [if_neg (by simp [strTruthy]), if_pos hc]
    simp only [get_location_key, hf]
    rw [if_pos (by decide)]

/-- Witness for `get_location_key_cache_hit` at a concrete cache and
query, with the API oracles set to transport failures to show they are
not consulted. -/
theorem get_location_key_cache_hit_witness :
    get_location_key [⟨none, "K1", 1, 2⟩] none (some 1) (some 2)
        (.error .transport) (.error .transport) = .ok ("K1", [⟨none, "K1", 1, 2⟩]) ∧
    (⟨none, "K1", 1, 2⟩ : CacheEntry) ∈ [(⟨none, "K1", 1, 2⟩ : CacheEntry)] := by
  have h := get_location_key_cache_hit.1 [⟨none, "K1", 1, 2⟩] 1 2 ⟨none, "K1", 1, 2⟩
    (find?_cons_pos (coordMatch 1 2) ⟨none, "K1", 1, 2⟩ []
      (coordMatch_true (by norm_num : |(1:ℚ) - 1| < 0.0001 ∧ |(2:ℚ) - 2| < 0.0001)))
    (by decide)
  exact ⟨h.2.2.2 (.error .transport) (.error .transport), h.1⟩

/-- The head of a filtered list is its first match. -/
lemma filterHead_eq_find (p : GeoCandidate → Bool) (l : List GeoCandidate) :
    (match l.filter p with
     | [] => (none : Option GeoCandidate)
     | r :: _ => some r) = l.find? p := by
  induction l with
  | nil => rfl
  | cons r rs ih =>
    rw [List.filter_cons]
    by_cases h : p r
    · rw [find?_cons_pos p r rs h]
      simp [h]
    · rw [find?_cons_neg p r rs (by simp [h])]
      simp only [h, Bool.false_eq_true, if_false]
      exact ih

/-- C8: `geocode` returns the first candidate, in response order, that
passes the three filters (exact country, exact admin1 region, feature
code PPL), and `None` exactly when no candidate passes. -/
theorem geocode_first_filtered :
    ∀ (results : List GeoCandidate) (state country : String),
      geocode (some results) state country
        = results.find? (geocode_keep state country) ∧
      (geocode (some results) state country = none ↔
        ∀ r ∈ results, geocode_keep state country r = false) ∧
      geocode none state country = none := by
  intro results state country
  have hmain : geocode (some results) state country
      = results.find? (geocode_keep state country) := by
    simp only [geocode]
    exact filterHead_eq_find _ _
  refine ⟨hmain, ?_, rfl⟩
  rw [hmain, List.find?_eq_none]
  constructor
  · intro h r hr
    simpa using h r hr
  · intro h r hr
    simp [h r hr]

/-- Witness for `geocode_first_filtered`: a first candidate failing the
feature-code filter is skipped and the second, passing one is returned. -/
theorem geocode_first_filtered_witness :
    geocode (some [⟨some "US", some "California", some "PPLA", none, none⟩,
                   ⟨some "US", some "California", some "PPL", none, none⟩])
        "California" "US"
      = some ⟨some "US", some "California", some "PPL", none, none⟩ := by
  rw [(geocode_first_filtered
    [⟨some "US", some "California", some "PPLA", none, none⟩,
     ⟨some "US", some "California", some "PPL", none, none⟩] "California" "US").1]
  rfl

lemma except_bind_ok {ε α β : Type} (a : α) (f : α → Except ε β) :
    (Except.ok a : Except ε α) >>= f = f a := rfl

lemma except_bind_error {ε α β : Type} (e : ε) (f : α → Except ε β) :
    (Except.error e : Except ε α) >>= f = .error e := rfl

lemma except_pure {ε α : Type} (a : α) : (pure a : Except ε α) = .ok a := rfl

lemma except_throw {ε α : Type} (e : ε) : (throw e : Except ε α) = .error e := rfl

/-- A WeatherAPI current-conditions payload carrying every field the
imperial branch of `parse_weatherapi_data` reads except `uv`. -/
def wapiPayloadNoUv : List (String × PyVal) :=
  [("temp_f", .num 70), ("feelslike_f", .num 69), ("windchill_f", .num 68),
   ("heatindex_f", .num 71), ("dewpoint_f", .num 50), ("wind_mph", .num 5),
   ("wind_degree", .num 180), ("wind_dir", .str "S"), ("gust_mph", .num 8),
   ("humidity", .num 40), ("pressure_in", .num 30), ("precip_in", .num 0),
   ("vis_miles", .num 10), ("cloud", .num 25),
   ("last_updated", .str "2026-10-12 10:00"), ("condition", .str "Sunny")]

/-- C9 counterexample: a payload missing only the optional `uv` field
does not succeed with `uv = null` — `parse_weatherapi_data` reads `uv`
with bracket access and raises `KeyError`. -/
theorem parse_weatherapi_missing_uv_raises :
    parse_weatherapi_data wapiPayloadNoUv "imperial" = .error (.keyError "uv") := rfl

/-- C9 amended: in `parse_weatherapi_data` every accessed field is
effectively required — a payload missing `temp_f` fails with
`KeyError("temp_f")` (a plain missing-key error, not a distinct
`MalformedResponse` condition), and a payload with every other field but
missing `uv` likewise fails with `KeyError("uv")` instead of succeeding
with a null `uv`. -/
theorem parse_weatherapi_required_fields :
    (∀ (data : List (String × PyVal)),
        pyGet data "temp_f" = .error (.keyError "temp_f") →
        parse_weatherapi_data data "imperial" = .error (.keyError "temp_f")) ∧
    (∀ (data : List (String × PyVal)) v1 v2 v3 v4 v5 v6 v7 v8 v9 v10 v11 v12 v13 v14,
        pyGet data "temp_f" = .ok v1 →
        pyGet data "feelslike_f" = .ok v2 →
        pyGet data "windchill_f" = .ok v3 →
        pyGet data "heatindex_f" = .ok v4 →
        pyGet data "dewpoint_f" = .ok v5 →
        pyGet data "wind_mph" = .ok v6 →
        pyGet data "wind_degree" = .ok v7 →
        pyGet data "wind_dir" = .ok v8 →
        pyGet data "gust_mph" = .ok v9 →
        pyGet data "humidity" = .ok v10 →
        pyGet data "pressure_in" = .ok v11 →
        pyGet data "precip_in" = .ok v12 →
        pyGet data "vis_miles" = .ok v13 →
        pyGet data "cloud" = .ok v14 →
        pyGet data "uv" = .error (.keyError "uv") →
        parse_weatherapi_data data "imperial" = .error (.keyError "uv")) := by
  constructor
  · intro data h1
    simp only [parse_weatherapi_data, eq_self_iff_true, if_true, h1, except_bind_error]
  · intro data v1 v2 v3 v4 v5 v6 v7 v8 v9 v10 v11 v12 v13 v14
      h1 h2 h3 h4 h5 h6 h7 h8 h9 h10 h11 h12 h13 h14 h15
    simp only [parse_weatherapi_data, eq_self_iff_true, if_true, h1, h2, h3, h4, h5,
      h6, h7, h8, h9, h10, h11, h12, h13, h14, h15, except_bind_ok, except_bind_error]

/-- Witness for `parse_weatherapi_required_fields` at concrete payloads. -/
theorem parse_weatherapi_required_fields_witness :
    parse_weatherapi_data [] "imperial" = .error (.keyError "temp_f") ∧
    parse_weatherapi_data wapiPayloadNoUv "imperial" = .error (.keyError "uv") :=
  ⟨parse_weatherapi_required_fields.1 [] rfl,
   parse_weatherapi_required_fields.2 wapiPayloadNoUv
     (.num 70) (.num 69) (.num 68) (.num 71) (.num 50) (.num 5) (.num 180)
     (.str "S") (.num 8) (.num 40) (.num 30) (.num 0) (.num 10) (.num 25)
     rfl rfl rfl rfl rfl rfl rfl rfl rfl rfl rfl rfl rfl rfl rfl⟩

/-- C10: for any Open-Meteo current-weather payload, requesting metric
units leaves every field of the returned reading `None` (the payload is
only mapped when the target units are imperial), so a metric open_meteo
report carries an entirely empty current reading. -/
theorem parse_open_meteo_metric_empty :
    (∀ (data : List (String × PyVal)),
        parse_open_meteo_data data "metric" = .ok {} ) ∧
    (({} : WeatherData).temperature = none ∧ ({} : WeatherData).feels_like = none ∧
     ({} : WeatherData).wind_chill = none ∧ ({} : WeatherData).heat_index = none ∧
     ({} : WeatherData).dew_point = none ∧ ({} : WeatherData).wind_speed = none ∧
     ({} : WeatherData).wind_degree = none ∧ ({} : WeatherData).wind_direction = none ∧
     ({} : WeatherData).wind_gust = none ∧ ({} : WeatherData).humidity = none ∧
     ({} : WeatherData).pressure = none ∧ ({} : WeatherData).precipitation = none ∧
     ({} : WeatherData).visibility = none ∧ ({} : WeatherData).cloud_cover = none ∧
     ({} : WeatherData).uv = none ∧ ({} : WeatherData).icon = none ∧
     ({} : WeatherData).timestamp = none ∧ ({} : WeatherData).condition = none ∧
     ({} : WeatherData).condition_str = none) ∧
    (∀ (location : String) (geo : Option GeoCandidate) (d : OMResp) (r : WeatherReport),
        get_open_meteo_data location "metric" geo (.ok d) = .ok (some r) →
        r.current = some {}) := by
  refine ⟨fun data => rfl,
    ⟨rfl, rfl, rfl, rfl, rfl, rfl, rfl, rfl, rfl, rfl, rfl, rfl, rfl, rfl, rfl,
     rfl, rfl, rfl, rfl⟩, ?_⟩
  intro location geo d r h
  simp only [get_open_meteo_data] at h
  cases hp : parse_location location with
  | error e =>
    rw [hp, except_bind_error] at h
    exact absurd h (by simp)
  | ok loc =>
    rw [hp, except_bind_ok] at h
    by_cases hc : loc.city.isSome ∧ loc.state.isSome
    · rw [if_pos hc] at h
      cases geo with
      | none => simp [except_pure] at h
      | some g =>
        simp only [except_bind_ok] at h
        have hcur : parse_open_meteo_data d.current_weather "metric" = .ok {} := rfl
        rw [hcur, except_bind_ok] at h
        have hr : mk_open_meteo_report loc d {} = r := by
          simpa [except_pure] using h
        rw [← hr]
        rfl
    · rw [if_neg hc] at h
      simp only [except_bind_ok] at h
      have hcur : parse_open_meteo_data d.current_weather "metric" = .ok {} := rfl
      rw [hcur, except_bind_ok] at h
      have hr : mk_open_meteo_report loc d {} = r := by
        simpa [except_pure] using h
      rw [← hr]
      rfl

/-- Witness for `parse_open_meteo_metric_empty` at a concrete payload
and a concrete successful coordinate-location call. -/
theorem parse_open_meteo_metric_empty_witness :
    parse_open_meteo_data [("temperature", .num 20)] "metric" = .ok {} ∧
    (mk_open_meteo_report ⟨some 1, some 2, none, none⟩
        ⟨[("temperature", .num 20)], .num 1, .num 2⟩ {}).current = some {} := by
  constructor
  · exact parse_open_meteo_metric_empty.1 [("temperature", .num 20)]
  · exact parse_open_meteo_metric_empty.2.2 "1.5,2.5" none
      ⟨[("temperature", .num 20)], .num 1, .num 2⟩
      (mk_open_meteo_report ⟨some 1.5, some 2.5, none, none⟩
        ⟨[("temperature", .num 20)], .num 1, .num 2⟩ {})
      (by rfl)

/-- A configuration enabling exactly three providers: open_meteo,
open_weather and weatherapi, with a coordinate location. -/
def cfgThree : Config :=
  { location := some "38.6052,-121.34272", units := some "imperial",
    apis := [("open_meteo", true), ("open_weather", true), ("weatherapi", true)] }

/-- A configuration enabling accuweather (and weatherapi after it). -/
def cfgAccu : Config :=
  { location := some "38.6052,-121.34272", units := some "imperial",
    apis := [("accuweather", true), ("weatherapi", true)] }

/-- Oracles for the three-provider scenario of the specification: the
first enabled provider fails with Unauthorized, the second with
Transport, the third succeeds. -/
def oUnauthTransport : Oracles :=
  { nws_geocode := none, nws_fetch := .error .transport, om_geocode := none,
    om_fetch := .error .unauthorized, ow_fetch := .error .transport,
    wapi_fetch := .ok { source := some "WeatherApi" }, wb_fetch := .ok () }

/-- C1 counterexample: with three enabled providers of which open_meteo
fails with Unauthorized, open_weather fails with Transport and
weatherapi would succeed, `get_weather` raises the Unauthorized error
instead of returning an aggregated view with one report and two
diagnostic entries. -/
theorem get_weather_unauthorized_aborts :
    get_weather cfgThree oUnauthTransport = .error .unauthorized := rfl

/-- `parse_location` at the scenario's coordinate string, in raw
computed form. -/
lemma parse_location_scenario :
    parse_location "38.6052,-121.34272"
      = .ok ⟨some ((1:ℚ) * (((38:ℕ):ℚ) + ((6052:ℕ):ℚ) / 10 ^ (4:ℕ))),
             some ((-1:ℚ) * (((121:ℕ):ℚ) + ((34272:ℕ):ℚ) / 10 ^ (5:ℕ))),
             none, none⟩ := rfl

/-- C1 amended: `get_weather` implements no per-provider failure
tolerance.  In the three-provider scenario any failure of the first
enabled provider propagates out of `get_weather` unchanged, aborting
aggregation before the remaining providers contribute, and no
diagnostic entry is recorded anywhere; moreover merely enabling
accuweather makes `get_weather` raise `TypeError`, because its adapter
is invoked with one argument instead of two and the `except
RuntimeError` clause cannot catch that. -/
theorem get_weather_failure_propagation :
    (∀ (o : Oracles) (e : PyErr),
        o.om_fetch = .error e →
        get_weather cfgThree o = .error e) ∧
    (∀ (o : Oracles), get_weather cfgAccu o = .error .typeError) := by
  constructor
  · intro o e h
    simp [get_weather, accuBranch, nwsBranch, get_open_meteo_data,
      effectiveLocation, enabledApis, cfgThree, strTruthy, parse_location_scenario,
      except_bind_ok, except_bind_error, except_pure, h]
  · intro o
    simp [get_weather, accuBranch, effectiveLocation, enabledApis, cfgAccu,
      strTruthy, parse_location_scenario, except_bind_ok, except_bind_error,
      except_pure, except_throw]

/-- Oracles with open_meteo failing with NotFound and everything else
succeeding. -/
def oNotFoundOm : Oracles :=
  { nws_geocode := none, nws_fetch := .ok {}, om_geocode := none,
    om_fetch := .error .notFound, ow_fetch := .ok {}, wapi_fetch := .ok {},
    wb_fetch := .ok () }

/-- Witness for `get_weather_failure_propagation` at concrete oracles. -/
theorem get_weather_failure_propagation_witness :
    get_weather cfgThree oNotFoundOm = .error .notFound ∧
    get_weather cfgAccu oNotFoundOm = .error .typeError :=
  ⟨get_weather_failure_propagation.1 oNotFoundOm .notFound rfl,
   get_weather_failure_propagation.2 oNotFoundOm⟩

/-- A configuration enabling the five providers other than accuweather,
with a coordinate location. -/
def cfgFive : Config :=
  { location := some "1.5,2.5", units := some "imperial",
    apis := [("national_weather_service", true), ("open_meteo", true),
             ("open_weather", true), ("weatherapi", true), ("weatherbit", true)] }

/-- A configuration enabling only open_meteo, with a city/state
location. -/
def cfgOmCity : Config :=
  { location := some "Sacramento,CA", units := some "imperial",
    apis := [("open_meteo", true)] }

/-- Oracles whose open_meteo geocode call finds nothing. -/
def oGeoNone : Oracles :=
  { nws_geocode := none, nws_fetch := .ok {}, om_geocode := none,
    om_fetch := .ok ⟨[], .num 0, .num 0⟩, ow_fetch := .ok {}, wapi_fetch := .ok {},
    wb_fetch := .ok () }

/-- C2 counterexample: when open_meteo's city/state location cannot be
geocoded, `get_open_meteo_data` returns `None` and `get_weather`
appends it, so the reports sequence contains a null placeholder. -/
theorem get_weather_null_placeholder :
    get_weather cfgOmCity oGeoNone = .ok (some (mkWeatherView "imperial" [none])) ∧
    (mkWeatherView "imperial" [none]).reports = some [none] :=
  ⟨rfl, rfl⟩

/-- C2 amended: the reports sequence contains, in fixed invocation
order, one entry per successful call among national_weather_service,
open_meteo, open_weather and weatherapi; weatherbit is invoked but its
result is discarded even on success (and accuweather can never
contribute, per `get_weather_failure_propagation`); and an open_meteo
provider whose city/state location cannot be geocoded contributes a
`None` placeholder entry rather than no entry. -/
theorem get_weather_reports_order :
    (∀ (o : Oracles) (rn rw rwa : WeatherReport) (d : OMResp) (cur : WeatherData),
        o.nws_fetch = .ok rn → o.om_fetch = .ok d →
        parse_open_meteo_data d.current_weather "imperial" = .ok cur →
        o.ow_fetch = .ok rw → o.wapi_fetch = .ok rwa → o.wb_fetch = .ok () →
        get_weather cfgFive o
          = .ok (some (mkWeatherView "imperial"
              [some rn,
               some (mk_open_meteo_report ⟨some 1.5, some 2.5, none, none⟩ d cur),
               some rw, some rwa]))) ∧
    (∀ (o : Oracles), o.om_geocode = none →
        get_weather cfgOmCity o = .ok (some (mkWeatherView "imperial" [none]))) := by
  constructor
  · intro o rn rw rwa d cur h1 h2 h3 h4 h5 h6
    have hloc : parse_location "1.5,2.5" = .ok ⟨some 1.5, some 2.5, none, none⟩ := by
      have h : parse_location "1.5,2.5"
          = .ok ⟨some ((1:ℚ) * (((1:ℕ):ℚ) + ((5:ℕ):ℚ) / 10 ^ (1:ℕ))),
                 some ((1:ℚ) * (((2:ℕ):ℚ) + ((5:ℕ):ℚ) / 10 ^ (1:ℕ))), none, none⟩ := rfl
      rw [h]
      norm_num
    simp [get_weather, accuBranch, nwsBranch, get_open_meteo_data,
      get_open_weather_data, get_weatherapi_data, get_weatherbit_data,
      effectiveLocation, enabledApis, cfgFive, strTruthy, hloc, h1, h2, h3, h4, h5, h6,
      except_bind_ok, except_bind_error, except_pure, except_throw]
  · intro o h
    have hloc : parse_location "Sacramento,CA"
        = .ok ⟨none, none, some "Sacramento", some "CA"⟩ := rfl
    simp [get_weather, accuBranch, nwsBranch, get_open_meteo_data,
      effectiveLocation, enabledApis, cfgOmCity, strTruthy, hloc, h,
      except_bind_ok, except_bind_error, except_pure, except_throw]

/-- An Open-Meteo current-weather payload used by witnesses. -/
def omPayload : List (String × PyVal) :=
  [("temperature", .num 70), ("windspeed", .num 5), ("winddirection", .null),
   ("weathercode", .num 0)]

/-- The canonical reading produced from `omPayload` in imperial units. -/
def omCur : WeatherData :=
  { temperature := some (.num 70), wind_speed := some (.num 5),
    wind_degree := some .null, wind_direction := none,
    condition_str := some (.str "Cloud development not observed or not observable") }

lemma weatherCodeLookup_zero :
    weatherCodeLookup (.num 0)
      = .ok "Cloud development not observed or not observable" := by
  simp only [weatherCodeLookup]
  rw [show WEATHER_CODE_MAP
      = ((0:ℕ), "Cloud development not observed or not observable")
        :: WEATHER_CODE_MAP.tail from rfl]
  rw [find?_cons_pos (fun p => ((p.1 : ℚ) == (0:ℚ)))
    ((0:ℕ), "Cloud development not observed or not observable")
    WEATHER_CODE_MAP.tail (by simp)]

lemma parse_omPayload :
    parse_open_meteo_data omPayload "imperial" = .ok omCur := by
  have g1 : pyGet omPayload "temperature" = .ok (.num 70) := rfl
  have g2 : pyGet omPayload "windspeed" = .ok (.num 5) := rfl
  have g3 : pyGet omPayload "winddirection" = .ok .null := rfl
  have g4 : pyGet omPayload "weathercode" = .ok (.num 0) := rfl
  have g5 : (PyVal.null).asFloat = Except.ok (none : Option ℚ) := rfl
  simp only [parse_open_meteo_data, eq_self_iff_true, if_true, g1, g2, g3, g4, g5,
    weatherCodeLookup_zero, except_bind_ok]
  rfl

/-- Oracles where every provider call succeeds. -/
def oAllOk : Oracles :=
  { nws_geocode := none, nws_fetch := .ok { source := some "nws" },
    om_geocode := none, om_fetch := .ok ⟨omPayload, .num 1, .num 2⟩,
    ow_fetch := .ok { source := some "open_weather" },
    wapi_fetch := .ok { source := some "WeatherApi" }, wb_fetch := .ok () }

/-- Witness for `get_weather_reports_order` at concrete oracles. -/
theorem get_weather_reports_order_witness :
    get_weather cfgFive oAllOk
      = .ok (some (mkWeatherView "imperial"
          [some { source := some "nws" },
           some (mk_open_meteo_report ⟨some 1.5, some 2.5, none, none⟩
             ⟨omPayload, .num 1, .num 2⟩ omCur),
           some { source := some "open_weather" },
           some { source := some "WeatherApi" }])) ∧
    get_weather cfgOmCity oAllOk = .ok (some (mkWeatherView "imperial" [none])) :=
  ⟨get_weather_reports_order.1 oAllOk { source := some "nws" }
     { source := some "open_weather" } { source := some "WeatherApi" }
     ⟨omPayload, .num 1, .num 2⟩ omCur rfl rfl parse_omPayload rfl rfl rfl,
   get_weather_reports_order.2 oAllOk rfl⟩
